import Mathlib

/-!
# Shallow embedding of the Spotlight game-show core

This file embeds the deterministic game-state core of the Spotlight
repository (`src/models/game_state.py`, `src/models/scoring_state.py`,
`src/models/game_show.py`, the AWARD branch of
`src/core/application.py._apply_command`, and the task loading pipeline
`src/services/task_loader.py` / `src/models/task.py`) into Lean, and proves
or refutes the frozen specification claims about it.

Conventions of the embedding:
* Python `int` is `Int`; Python `None`/optional values are `Option`.
* Python `set[int]` is `Finset Int` (Python set equality is extensional).
* In-place mutation becomes explicit state passing: each method returns the
  new state (paired with the Python return value where there is one).
* Python exceptions (`ValueError`) become `Except String`.
* JSON-like dict documents are modelled by the `JValue` type below.  Python's
  `bool` is a distinct `JValue` constructor; the CPython subtlety that
  `isinstance(True, int)` holds is not modelled (no claim exercises it).
-/

/-- JSON-like values as passed to/from the persistence codec and the task
loader (the result of `json.loads` / argument of `json.dumps`). -/
inductive JValue where
  | jnull : JValue
  | jbool : Bool → JValue
  | jint : Int → JValue
  | jstr : String → JValue
  | jarr : List JValue → JValue
  | jobj : List (String × JValue) → JValue

namespace JValue

/-- Python `dict.get(key, default)`. -/
def getD (v : JValue) (key : String) (dflt : JValue) : JValue :=
  match v with
  | .jobj fields =>
    match fields.find? (fun p => p.1 == key) with
    | some p => p.2
    | none => dflt
  | _ => dflt

/-- Python `dict.get(key)` (default `None`). -/
def get (v : JValue) (key : String) : JValue :=
  v.getD key .jnull

/-- Keys of an object (empty for non-objects). -/
def keys (v : JValue) : List String :=
  match v with
  | .jobj fields => fields.map Prod.fst
  | _ => []

end JValue

/-- Python `str.strip()`: drop leading and trailing whitespace.  Defined
over the character list so its algebraic properties (idempotence) are
provable; Lean's whitespace set (space, tab, CR, LF) covers every character
the repository's inputs use. -/
def pyStrip (s : String) : String :=
  ⟨((s.data.dropWhile Char.isWhitespace).reverse.dropWhile Char.isWhitespace).reverse⟩

/-- `BuzzState` from `src/models/game_state.py` (string-valued enum). -/
inductive BuzzState where
  | closed : BuzzState
  | open_ : BuzzState
  | locked : BuzzState
deriving DecidableEq

/-- The `.value` string of the Python enum member. -/
def BuzzState.value : BuzzState → String
  | .closed => "closed"
  | .open_ => "open"
  | .locked => "locked"

/-- `TimerMode` from `src/models/game_state.py`. -/
inductive TimerMode where
  | stopwatch : TimerMode
  | countdown : TimerMode
deriving DecidableEq

def TimerMode.value : TimerMode → String
  | .stopwatch => "stopwatch"
  | .countdown => "countdown"

/-- `Team` dataclass. -/
structure Team where
  name : String
  score : Int
deriving DecidableEq

/-- `Timer` dataclass (field defaults of the dataclass appear in
`Timer.init` below). -/
structure Timer where
  mode : TimerMode
  running : Bool
  elapsed_ms : Int
  target_ms : Option Int
  last_start_ms : Option Int
deriving DecidableEq

namespace Timer

/-- The dataclass defaults: `Timer()`. -/
def init : Timer :=
  { mode := .stopwatch, running := false, elapsed_ms := 0,
    target_ms := none, last_start_ms := none }

/-- `Timer._accumulate`. -/
def accumulate (tm : Timer) (now_ms : Int) : Timer :=
  match tm.last_start_ms with
  | none => { tm with last_start_ms := some now_ms }
  | some last =>
    { tm with elapsed_ms := tm.elapsed_ms + max 0 (now_ms - last) }

/-- `Timer.start`. -/
def start (tm : Timer) (now_ms : Int) : Timer :=
  if tm.running then tm
  else { tm with running := true, last_start_ms := some now_ms }

/-- `Timer.pause`. -/
def pause (tm : Timer) (now_ms : Int) : Timer :=
  if !tm.running then tm
  else
    let tm := tm.accumulate now_ms
    { tm with running := false, last_start_ms := none }

/-- `Timer.reset`. -/
def reset (tm : Timer) : Timer :=
  { tm with running := false, elapsed_ms := 0, last_start_ms := none }

/-- `Timer.set_countdown` (raises `ValueError` on a negative target). -/
def set_countdown (tm : Timer) (target_ms : Int) : Except String Timer :=
  if target_ms < 0 then .error "target_ms must be >= 0"
  else .ok (Timer.reset { tm with mode := .countdown, target_ms := some target_ms })

/-- `Timer.set_stopwatch`. -/
def set_stopwatch (tm : Timer) : Timer :=
  Timer.reset { tm with mode := .stopwatch, target_ms := none }

/-- `Timer.tick`. -/
def tick (tm : Timer) (now_ms : Int) : Timer :=
  if !tm.running then tm
  else { tm.accumulate now_ms with last_start_ms := some now_ms }

/-- `Timer.remaining_ms`. -/
def remaining_ms (tm : Timer) : Option Int :=
  match tm.mode with
  | .stopwatch => none
  | .countdown =>
    match tm.target_ms with
    | none => none
    | some target => some (max 0 (target - tm.elapsed_ms))

/-- `Timer.is_finished`. -/
def is_finished (tm : Timer) : Bool :=
  match tm.remaining_ms with
  | some rem => rem == 0
  | none => false

end Timer

/-- `GameState` dataclass (aggregate root). -/
structure GameState where
  teams : List Team
  buzz_state : BuzzState
  buzz_locked_team : Option Int
  timer : Timer
  buzz_blocked_teams : Finset Int
  status_message : Option String
  status_until_ms : Option Int
deriving DecidableEq

namespace GameState

/-- `GameState.with_teams` (classmethod constructor; `ValueError` when no
name survives trimming). -/
def with_teams (team_names : List String) : Except String GameState :=
  let clean := (team_names.filter (fun n => decide (n ≠ "") && decide (pyStrip n ≠ ""))).map pyStrip
  if clean = [] then .error "At least one team name required"
  else .ok
    { teams := clean.map (fun n => { name := n, score := 0 }),
      buzz_state := .closed, buzz_locked_team := none, timer := Timer.init,
      buzz_blocked_teams := ∅, status_message := none, status_until_ms := none }

/-- `GameState.set_status` (the Python default duration is 2000 ms; call
sites of the embedding pass it explicitly). -/
def set_status (gs : GameState) (message : String) (now_ms duration_ms : Int) :
    GameState :=
  { gs with status_message := some message,
            status_until_ms := some (now_ms + max 0 duration_ms) }

/-- `GameState.clear_expired_status`. -/
def clear_expired_status (gs : GameState) (now_ms : Int) : GameState :=
  match gs.status_until_ms with
  | some until_ms =>
    if until_ms ≤ now_ms then
      { gs with status_until_ms := none, status_message := none }
    else gs
  | none => gs

/-- Team lookup used to render names in status messages; all call sites are
guarded so the index is in range (Python would raise `IndexError`
otherwise). -/
def teamName (gs : GameState) (i : Int) : String :=
  (gs.teams.getD i.toNat { name := "", score := 0 }).name

/-- `GameState.add_points`. -/
def add_points (gs : GameState) (team_index points : Int)
    (now_ms : Option Int) : GameState :=
  if !(0 ≤ team_index && team_index < (gs.teams.length : Int)) then gs
  else if team_index ∈ gs.buzz_blocked_teams then
    match now_ms with
    | some now => gs.set_status ("BLOCKED: " ++ gs.teamName team_index) now 2000
    | none => gs
  else
    let t := gs.teams.getD team_index.toNat { name := "", score := 0 }
    let gs := { gs with teams := gs.teams.set team_index.toNat { t with score := t.score + points } }
    match now_ms with
    | some now =>
      let sign := if 0 ≤ points then "+" else ""
      gs.set_status (gs.teamName team_index ++ " " ++ sign ++ toString points) now 2000
    | none => gs

/-- `GameState.reset_scores`. -/
def reset_scores (gs : GameState) (now_ms : Option Int) : GameState :=
  let gs :=
    { gs with teams := gs.teams.map (fun t => { t with score := 0 }),
              buzz_state := .closed, buzz_locked_team := none,
              buzz_blocked_teams := ∅, timer := gs.timer.reset }
  match now_ms with
  | some now => gs.set_status "Scores reset" now 2000
  | none => gs

/-- `GameState.open_buzz`. -/
def open_buzz (gs : GameState) (now_ms : Option Int) : GameState :=
  let gs := { gs with buzz_state := .open_, buzz_locked_team := none }
  match now_ms with
  | some now => gs.set_status "BUZZ OPEN" now 2000
  | none => gs

/-- `GameState.reset_buzz`. -/
def reset_buzz (gs : GameState) (now_ms : Option Int) : GameState :=
  let gs := { gs with buzz_state := .closed, buzz_locked_team := none,
                      buzz_blocked_teams := ∅ }
  match now_ms with
  | some now => gs.set_status "BUZZ RESET" now 2000
  | none => gs

/-- `GameState.fail_locked_team_and_reopen`. -/
def fail_locked_team_and_reopen (gs : GameState) (now_ms : Option Int) :
    GameState :=
  let gs :=
    match gs.buzz_locked_team with
    | some t => { gs with buzz_blocked_teams := insert t gs.buzz_blocked_teams }
    | none => gs
  let gs := { gs with buzz_state := .open_, buzz_locked_team := none }
  match now_ms with
  | some now => gs.set_status "BUZZ REOPEN" now 2000
  | none => gs

/-- `GameState.clear_buzz_blocks`. -/
def clear_buzz_blocks (gs : GameState) : GameState :=
  { gs with buzz_blocked_teams := ∅ }

/-- `GameState.buzz` (returns the Python `bool` paired with the new state). -/
def buzz (gs : GameState) (team_index : Int) (now_ms : Option Int) :
    Bool × GameState :=
  if gs.buzz_state ≠ .open_ then (false, gs)
  else if !(0 ≤ team_index && team_index < (gs.teams.length : Int)) then (false, gs)
  else if team_index ∈ gs.buzz_blocked_teams then
    match now_ms with
    | some now => (false, gs.set_status ("BLOCKED: " ++ gs.teamName team_index) now 2000)
    | none => (false, gs)
  else
    let gs := { gs with buzz_state := .locked, buzz_locked_team := some team_index }
    match now_ms with
    | some now => (true, gs.set_status ("BUZZ: " ++ gs.teamName team_index) now 2000)
    | none => (true, gs)

/-- `GameState.timer_start_pause_toggle`. -/
def timer_start_pause_toggle (gs : GameState) (now_ms : Int) : GameState :=
  if gs.timer.running then
    ({ gs with timer := gs.timer.pause now_ms }).set_status "Timer paused" now_ms 2000
  else
    ({ gs with timer := gs.timer.start now_ms }).set_status "Timer started" now_ms 2000

/-- `GameState.timer_reset`. -/
def timer_reset (gs : GameState) (now_ms : Int) : GameState :=
  ({ gs with timer := gs.timer.reset }).set_status "Timer reset" now_ms 2000

/-- `GameState.tick`. -/
def tick (gs : GameState) (now_ms : Int) : GameState :=
  ({ gs with timer := gs.timer.tick now_ms }).clear_expired_status now_ms

/-- `GameState.to_dict`. -/
def to_dict (gs : GameState) : JValue :=
  .jobj
    [ ("version", .jint 1),
      ("teams", .jarr (gs.teams.map (fun t =>
        .jobj [("name", .jstr t.name), ("score", .jint t.score)]))),
      ("buzz", .jobj
        [ ("state", .jstr gs.buzz_state.value),
          ("locked_team",
            match gs.buzz_locked_team with
            | some t => .jint t
            | none => .jnull) ]),
      ("timer", .jobj
        [ ("mode", .jstr gs.timer.mode.value),
          ("running", .jbool gs.timer.running),
          ("elapsed_ms", .jint gs.timer.elapsed_ms),
          ("target_ms",
            match gs.timer.target_ms with
            | some x => .jint x
            | none => .jnull) ]) ]

/-- The team-parsing step of `GameState.from_dict` (one list item). -/
def parseTeam (item : JValue) : Except String Team :=
  match item with
  | .jobj _ =>
    match item.get "name", item.getD "score" (.jint 0) with
    | .jstr s, score =>
      if pyStrip s = "" then .error "Team.name must be a non-empty string"
      else
        match score with
        | .jint n => .ok { name := pyStrip s, score := n }
        | _ => .error "Team.score must be an int"
    | _, _ => .error "Team.name must be a non-empty string"
  | _ => .error "Team must be an object"

/-- The team-parsing loop of `GameState.from_dict`. -/
def parseTeams : List JValue → Except String (List Team)
  | [] => .ok []
  | item :: rest => do
    let t ← parseTeam item
    let ts ← parseTeams rest
    .ok (t :: ts)

/-- The `buzz` block of `GameState.from_dict`. -/
def applyBuzzFields (gs : GameState) (data : JValue) : GameState :=
  match data.getD "buzz" (.jobj []) with
  | .jobj fields =>
    let buzz := JValue.jobj fields
    let gs :=
      match buzz.getD "state" (.jstr "closed") with
      | .jstr s =>
        if s = "closed" then { gs with buzz_state := .closed }
        else if s = "open" then { gs with buzz_state := .open_ }
        else if s = "locked" then { gs with buzz_state := .locked }
        else gs
      | _ => gs
    match buzz.get "locked_team" with
    | .jnull => { gs with buzz_locked_team := none }
    | .jint n => { gs with buzz_locked_team := some n }
    | _ => gs
  | _ => gs

/-- The `timer` block of `GameState.from_dict` (note: a persisted boolean
`running` is restored as *paused*). -/
def applyTimerFields (gs : GameState) (data : JValue) : GameState :=
  match data.getD "timer" (.jobj []) with
  | .jobj fields =>
    let timer := JValue.jobj fields
    let gs :=
      match timer.getD "mode" (.jstr "stopwatch") with
      | .jstr s =>
        if s = "stopwatch" then { gs with timer := { gs.timer with mode := .stopwatch } }
        else if s = "countdown" then { gs with timer := { gs.timer with mode := .countdown } }
        else gs
      | _ => gs
    let gs :=
      match timer.getD "running" (.jbool false) with
      | .jbool _ => { gs with timer := { gs.timer with running := false } }
      | _ => gs
    let gs :=
      match timer.getD "elapsed_ms" (.jint 0) with
      | .jint n =>
        if 0 ≤ n then { gs with timer := { gs.timer with elapsed_ms := n } } else gs
      | _ => gs
    match timer.get "target_ms" with
    | .jnull => { gs with timer := { gs.timer with target_ms := none } }
    | .jint n =>
      if 0 ≤ n then { gs with timer := { gs.timer with target_ms := some n } } else gs
    | _ => gs
  | _ => gs

/-- The final sanitization step of `GameState.from_dict`: an out-of-range
locked team index is cleared, and a `Locked` state forced inconsistent by
that clearing is downgraded to `Closed`. -/
def sanitizeLockedTeam (gs : GameState) : GameState :=
  match gs.buzz_locked_team with
  | some lt =>
    if 0 ≤ lt ∧ lt < (gs.teams.length : Int) then gs
    else
      let gs := { gs with buzz_locked_team := none }
      if gs.buzz_state = .locked then { gs with buzz_state := .closed } else gs
  | none => gs

/-- `GameState.from_dict`. -/
def from_dict (data : JValue) : Except String GameState :=
  match data with
  | .jobj _ =>
    match data.get "teams" with
    | .jarr items =>
      if items.isEmpty then .error "GameState.teams must be a non-empty array"
      else do
        let teams ← parseTeams items
        let gs : GameState :=
          { teams := teams, buzz_state := .closed, buzz_locked_team := none,
            timer := Timer.init, buzz_blocked_teams := ∅,
            status_message := none, status_until_ms := none }
        .ok (sanitizeLockedTeam (applyTimerFields (applyBuzzFields gs data) data))
    | _ => .error "GameState.teams must be a non-empty array"
  | _ => .error "GameState data must be an object"

end GameState

/-- `ScoringState` from `src/models/scoring_state.py` (the per-task award
guard; the Python attribute is a `set[int]`). -/
structure ScoringState where
  awarded : Finset Int
deriving DecidableEq

namespace ScoringState

/-- `ScoringState.__init__`. -/
def init : ScoringState := { awarded := ∅ }

/-- `ScoringState.is_awarded`. -/
def is_awarded (s : ScoringState) (task_id : Int) : Bool :=
  decide (task_id ∈ s.awarded)

/-- `ScoringState.mark_awarded` (Python return value paired with the new
guard state). -/
def mark_awarded (s : ScoringState) (task_id : Int) : Bool × ScoringState :=
  if task_id ∈ s.awarded then (false, s)
  else (true, { awarded := insert task_id s.awarded })

/-- `ScoringState.reset`. -/
def reset (s : ScoringState) (task_id : Int) : ScoringState :=
  { awarded := s.awarded.erase task_id }

/-- `ScoringState.clear_all`. -/
def clear_all (_s : ScoringState) : ScoringState := { awarded := ∅ }

end ScoringState

/-- The task-record interface consumed by the orchestrator: the `task.id`
and `task.difficulty` attribute reads in `src/models/game_show.py` and
`src/core/application.py` (both are `Optional[int]` there).  The dataclasses
in `src/models/task.py` declare no `difficulty` field at all — that mismatch
is the subject of claim C8; this structure embeds the interface the
orchestrator code actually dereferences. -/
structure GameTask where
  id : Option Int
  difficulty : Option Int
deriving DecidableEq

/-- `award_points_for_current_task` from `src/models/game_show.py`.
The session argument is replaced by its current task; `none` models the
`assert task.difficulty is not None` failing.  Otherwise the result pairs
the Python return value (the awarded team index or `None`) with the updated
`GameState`. -/
def award_points_for_current_task (task : GameTask) (game_state : GameState)
    (selected_team_index : Option Int) (now_ms : Int) :
    Option (Option Int × GameState) :=
  match task.difficulty with
  | none => none
  | some d =>
    let points := d
    let team_index :=
      match game_state.buzz_locked_team with
      | some t => some t
      | none => selected_team_index
    match team_index with
    | none => some (none, game_state.set_status "No team selected" now_ms 2000)
    | some t => some (some t, game_state.add_points t points (some now_ms))

/-- The slice of `Application` state that the AWARD command touches. -/
structure AppState where
  game_state : GameState
  selected_team : Option Int
  scoring_state : ScoringState
deriving DecidableEq

/-- The `CommandType.AWARD` branch of `Application._apply_command`
(`src/core/application.py`).  `none` models the assertion inside
`award_points_for_current_task` failing. -/
def Application.applyAward (task : GameTask) (app : AppState) (now_ms : Int) :
    Option AppState :=
  let gs := app.game_state
  let task_id := task.id
  let alreadyAwarded :=
    match task_id with
    | some i => app.scoring_state.is_awarded i
    | none => false
  if alreadyAwarded then
    some { app with game_state := gs.set_status "Already awarded" now_ms 2000 }
  else
    let target_team :=
      match gs.buzz_locked_team with
      | some t => some t
      | none => app.selected_team
    match target_team with
    | none => some { app with game_state := gs.set_status "No team selected" now_ms 2000 }
    | some t =>
      if t ∈ gs.buzz_blocked_teams then
        some { app with game_state := gs.set_status ("BLOCKED: " ++ gs.teamName t) now_ms 2000 }
      else
        match award_points_for_current_task task gs app.selected_team now_ms with
        | none => none
        | some (awarded_team, gs1) =>
          match awarded_team with
          | none => some { app with game_state := gs1 }
          | some _ =>
            let scoring1 :=
              match task_id with
              | some i => (app.scoring_state.mark_awarded i).2
              | none => app.scoring_state
            some { app with game_state := gs1.reset_buzz (some now_ms),
                            scoring_state := scoring1 }

namespace TaskFactory

/-- The declared dataclass constructor fields of each task class registered
in `TaskFactory._TASK_CLASSES` (`src/models/task.py`).  None of the classes
declares a `difficulty` field. -/
def taskClassFields : String → List String
  | "quiz" => ["type", "id", "question", "note"]
  | "tabu" => ["type", "id", "topic", "forbidden_words"]
  | "discussion" => ["type", "id", "prompt", "spotlight_duration"]
  | "code" => ["type", "id", "code", "question", "note"]
  | "explain_to" => ["type", "id", "topic", "audience", "note"]
  | _ => []

/-- Keys of `TaskFactory._TASK_CLASSES`. -/
def taskTypes : List String := ["quiz", "tabu", "discussion", "code", "explain_to"]

/-- `TaskFactory._require_non_empty_str`. -/
def require_non_empty_str (data : JValue) (field : String) : Except String Unit :=
  match data.get field with
  | .jstr s =>
    if pyStrip s = "" then
      .error ("Field '" ++ field ++ "' must be a non-empty string")
    else .ok ()
  | _ => .error ("Field '" ++ field ++ "' must be a non-empty string")

/-- `TaskFactory._require_str_list`. -/
def require_str_list (data : JValue) (field : String) : Except String Unit :=
  match data.get field with
  | .jarr items =>
    if items.isEmpty then
      .error ("Field '" ++ field ++ "' must be a non-empty array of strings")
    else if items.all (fun it =>
        match it with
        | .jstr s => decide (pyStrip s ≠ "")
        | _ => false) then .ok ()
    else .error ("Field '" ++ field ++ "' must contain only non-empty strings")
  | _ => .error ("Field '" ++ field ++ "' must be a non-empty array of strings")

/-- `TaskFactory._optional_str`. -/
def optional_str (data : JValue) (field : String) : Except String Unit :=
  match data with
  | .jobj fields =>
    match fields.find? (fun p => p.1 == field) with
    | some p =>
      match p.2 with
      | .jnull => .ok ()
      | .jstr _ => .ok ()
      | _ => .error ("Optional field '" ++ field ++ "' must be a string when provided")
    | none => .ok ()
  | _ => .ok ()

/-- The object produced by `task_class(**task_data)`: the class tag, the
assigned id, and the remaining keyword arguments the dataclass accepted. -/
structure BaseTask where
  type : String
  id : Int
  attrs : List (String × JValue)

/-- `TaskFactory.from_dict`.  The final `task_class(**task_data)` call
raises `TypeError` (wrapped into `ValueError`) exactly when some keyword of
`task_data` is not a declared dataclass field; `task_data` is the record's
keys plus the injected `id`. -/
def from_dict (data : JValue) (task_id : Int) : Except String BaseTask :=
  match data with
  | .jobj fields => do
    let task_type ←
      (match data.get "type" with
       | .jstr s =>
         if pyStrip s = "" then .error "Field 'type' must be a non-empty string"
         else .ok s
       | _ => .error "Field 'type' must be a non-empty string" :
        Except String String)
    if !(taskTypes.contains task_type) then
      .error ("Unknown task type: " ++ task_type)
    else do
      (if task_type = "quiz" then do
        require_non_empty_str data "question"
        optional_str data "note"
      else if task_type = "tabu" then do
        require_non_empty_str data "topic"
        require_str_list data "forbidden_words"
      else if task_type = "discussion" then do
        require_non_empty_str data "prompt"
        optional_str data "spotlight_duration"
      else if task_type = "code" then do
        require_non_empty_str data "code"
        require_non_empty_str data "question"
        optional_str data "note"
      else do
        require_non_empty_str data "topic"
        require_non_empty_str data "audience"
        optional_str data "note")
      let kwargKeys := (fields.map Prod.fst).insert "id"
      if kwargKeys.all (fun k => (taskClassFields task_type).contains k) then
        .ok { type := task_type, id := task_id,
              attrs := fields.filter (fun p => p.1 ≠ "type" && p.1 ≠ "id") }
      else
        .error ("Invalid data for " ++ task_type ++ " task: unexpected keyword argument")
  | _ => .error "Task must be an object"

end TaskFactory

namespace TaskLoader

/-- The enumeration loop of `TaskLoader.load_tasks`. -/
def loadTasksAux : List JValue → Nat → Except String (List TaskFactory.BaseTask)
  | [], _ => .ok []
  | d :: rest, index =>
    match TaskFactory.from_dict d (Int.ofNat index) with
    | .ok t => do
      let ts ← loadTasksAux rest (index + 1)
      .ok (t :: ts)
    | .error e => .error ("Invalid task at index " ++ toString index ++ ": " ++ e)

/-- `TaskLoader.load_tasks`, starting from the parsed JSON value (file I/O
and JSON decoding are outside the embedding). -/
def load_tasks (data : JValue) : Except String (List TaskFactory.BaseTask) :=
  match data with
  | .jarr items =>
    if items.isEmpty then
      .error "Task file contains an empty array - at least one task required"
    else loadTasksAux items 0
  | _ => .error "Task file must contain a JSON array"

end TaskLoader

/-- `Except.isOk`-style Boolean observer used to state acceptance facts. -/
def exceptAccepts {ε α : Type} : Except ε α → Bool
  | .ok _ => true
  | .error _ => false

/-! ## Invariants and reachability -/

/-- Validity of the optional locked-team index. -/
def lockedValid (gs : GameState) : Prop :=
  match gs.buzz_locked_team with
  | some t => 0 ≤ t ∧ t < (gs.teams.length : Int)
  | none => True

/-- Validity of every blocked-team index. -/
def blockedValid (gs : GameState) : Prop :=
  ∀ t ∈ gs.buzz_blocked_teams, 0 ≤ t ∧ t < (gs.teams.length : Int)

/-- The arbiter consistency invariant of claim C2. -/
def buzzInv (gs : GameState) : Prop :=
  (gs.buzz_locked_team ≠ none ↔ gs.buzz_state = BuzzState.locked) ∧
  lockedValid gs ∧ blockedValid gs

/-- Facts about the team ledger maintained by every public operation: the
roster is non-empty and every name is trimmed and non-blank. -/
def teamsInv (gs : GameState) : Prop :=
  gs.teams ≠ [] ∧ ∀ t ∈ gs.teams, pyStrip t.name = t.name ∧ t.name ≠ ""

/-- Facts about the timer maintained by every public operation. -/
def timerInv (tm : Timer) : Prop :=
  0 ≤ tm.elapsed_ms ∧
  (match tm.target_ms with
   | some x => 0 ≤ x
   | none => True) ∧
  (tm.running = false → tm.last_start_ms = none)

/-- The inductive invariant carried by every operation-reachable state. -/
def stateInv (gs : GameState) : Prop :=
  teamsInv gs ∧ buzzInv gs ∧ timerInv gs.timer

/-- Game states reachable through the public operations of §4 of the spec:
construction by `with_teams` followed by any sequence of the mutators
(scoring, buzzer, status and timer operations). -/
inductive Reachable : GameState → Prop where
  | with_teams (team_names : List String) (gs : GameState) :
      GameState.with_teams team_names = .ok gs → Reachable gs
  | add_points (gs : GameState) (i p : Int) (now : Option Int) :
      Reachable gs → Reachable (gs.add_points i p now)
  | reset_scores (gs : GameState) (now : Option Int) :
      Reachable gs → Reachable (gs.reset_scores now)
  | open_buzz (gs : GameState) (now : Option Int) :
      Reachable gs → Reachable (gs.open_buzz now)
  | reset_buzz (gs : GameState) (now : Option Int) :
      Reachable gs → Reachable (gs.reset_buzz now)
  | fail_locked (gs : GameState) (now : Option Int) :
      Reachable gs → Reachable (gs.fail_locked_team_and_reopen now)
  | clear_buzz_blocks (gs : GameState) :
      Reachable gs → Reachable gs.clear_buzz_blocks
  | buzz (gs : GameState) (i : Int) (now : Option Int) :
      Reachable gs → Reachable (gs.buzz i now).2
  | set_status (gs : GameState) (m : String) (now dur : Int) :
      Reachable gs → Reachable (gs.set_status m now dur)
  | clear_expired_status (gs : GameState) (now : Int) :
      Reachable gs → Reachable (gs.clear_expired_status now)
  | timer_toggle (gs : GameState) (now : Int) :
      Reachable gs → Reachable (gs.timer_start_pause_toggle now)
  | timer_reset (gs : GameState) (now : Int) :
      Reachable gs → Reachable (gs.timer_reset now)
  | tick (gs : GameState) (now : Int) :
      Reachable gs → Reachable (gs.tick now)
  | set_countdown (gs : GameState) (target : Int) (tm : Timer) :
      Reachable gs → gs.timer.set_countdown target = .ok tm →
      Reachable { gs with timer := tm }
  | set_stopwatch (gs : GameState) :
      Reachable gs → Reachable { gs with timer := gs.timer.set_stopwatch }

/-! ## Concrete states and documents used as evidence -/

/-- The state `GameState.with_teams(["A"])` constructs. -/
def gsA : GameState :=
  { teams := [{ name := "A", score := 0 }], buzz_state := .closed,
    buzz_locked_team := none, timer := Timer.init, buzz_blocked_teams := ∅,
    status_message := none, status_until_ms := none }

/-- A reachable one-team state whose team 0 is blocked: obtained from `gsA`
by `open_buzz`, a successful `buzz(0)` and `fail_locked_team_and_reopen`
(all without a timestamp, so no status message is set). -/
def gsBlocked : GameState :=
  (((gsA.open_buzz none).buzz 0 none).2.fail_locked_team_and_reopen none)

/-- A persisted document whose buzz state says `locked` while its
`locked_team` is absent. -/
def lockedNoneDoc : JValue :=
  .jobj [("teams", .jarr [.jobj [("name", .jstr "A"), ("score", .jint 0)]]),
         ("buzz", .jobj [("state", .jstr "locked")])]

/-- A persisted document carrying an unknown future `version`. -/
def version99Doc : JValue :=
  .jobj [("version", .jint 99),
         ("teams", .jarr [.jobj [("name", .jstr "A"), ("score", .jint 5)]])]

/-- A task file consisting of one quiz record with no `difficulty` field. -/
def quizNoDifficultyDoc : JValue :=
  .jarr [.jobj [("type", .jstr "quiz"), ("question", .jstr "Q")]]

/-- A task file consisting of one well-formed quiz record carrying
`difficulty: 3` as the spec's task-record schema requires. -/
def quizWithDifficultyDoc : JValue :=
  .jarr [.jobj [("type", .jstr "quiz"), ("question", .jstr "Q"),
                ("difficulty", .jint 3)]]

deriving instance DecidableEq for Except

/-! ## Helper lemmas -/

theorem dropWhile_dropWhile (p : Char → Bool) (l : List Char) :
    List.dropWhile p (List.dropWhile p l) = List.dropWhile p l := by
  induction l with
  | nil => simp
  | cons x xs ih =>
    by_cases h : p x = true
    · simp [List.dropWhile_cons, h, ih]
    · simp [List.dropWhile_cons, h]

theorem dropWhile_eq_drop (p : Char → Bool) (l : List Char) :
    ∃ k, List.dropWhile p l = l.drop k := by
  induction l with
  | nil => exact ⟨0, rfl⟩
  | cons x xs ih =>
    by_cases h : p x = true
    · obtain ⟨k, hk⟩ := ih
      exact ⟨k + 1, by simp [List.dropWhile_cons, h, hk]⟩
    · exact ⟨0, by simp [List.dropWhile_cons, h]⟩

theorem dropWhile_take (p : Char → Bool) (l : List Char) (n : Nat)
    (h : List.dropWhile p l = l) : List.dropWhile p (l.take n) = l.take n := by
  cases l with
  | nil => simp
  | cons x xs =>
    have hx : ¬p x = true := by
      intro hp
      rw [List.dropWhile_cons, if_pos hp] at h
      have h1 : (List.dropWhile p xs).length ≤ xs.length := by
        obtain ⟨k, hk⟩ := dropWhile_eq_drop p xs
        simp [hk]
      have h2 := congrArg List.length h
      simp at h2
      omega
    cases n with
    | zero => simp
    | succ n => simp [List.dropWhile_cons, hx]

theorem stripList_idem (p : Char → Bool) (l : List Char) :
    ((((l.dropWhile p).reverse.dropWhile p).reverse.dropWhile p).reverse.dropWhile p).reverse
      = ((l.dropWhile p).reverse.dropWhile p).reverse := by
  set A := l.dropWhile p with hA
  have hAA : List.dropWhile p A = A := dropWhile_dropWhile p l
  set B := A.reverse.dropWhile p with hB
  obtain ⟨k, hk⟩ := dropWhile_eq_drop p A.reverse
  have hBrev : B.reverse = A.take (A.reverse.length - k) := by
    rw [hB, hk, List.reverse_drop]
    simp
  have step1 : List.dropWhile p B.reverse = B.reverse := by
    rw [hBrev]
    exact dropWhile_take p A _ hAA
  have step2 : List.dropWhile p B = B := by
    rw [hB]
    exact dropWhile_dropWhile p A.reverse
  rw [step1]
  simp [step2]

theorem pyStrip_idem (s : String) : pyStrip (pyStrip s) = pyStrip s :=
  congrArg String.mk (stripList_idem Char.isWhitespace s.data)

theorem pyStrip_empty : pyStrip "" = "" := rfl

theorem stateInv_set_status (gs : GameState) (m : String) (now dur : Int)
    (h : stateInv gs) : stateInv (gs.set_status m now dur) := by
  simpa [stateInv, teamsInv, buzzInv, lockedValid, blockedValid, timerInv,
    GameState.set_status] using h

theorem stateInv_clear_expired_status (gs : GameState) (now : Int)
    (h : stateInv gs) : stateInv (gs.clear_expired_status now) := by
  unfold GameState.clear_expired_status
  split
  · split
    · simpa [stateInv, teamsInv, buzzInv, lockedValid, blockedValid, timerInv] using h
    · exact h
  · exact h

theorem stateInv_open_buzz (gs : GameState) (now : Option Int)
    (h : stateInv gs) : stateInv (gs.open_buzz now) := by
  obtain ⟨ht, ⟨hb1, hb2, hb3⟩, htm⟩ := h
  unfold GameState.open_buzz
  have h1 : stateInv { gs with buzz_state := .open_, buzz_locked_team := none } := by
    refine ⟨ht, ⟨by simp, by simp [lockedValid], ?_⟩, htm⟩
    intro t htmem
    exact hb3 t htmem
  cases now with
  | some now => exact stateInv_set_status _ _ _ _ h1
  | none => exact h1

theorem stateInv_reset_buzz (gs : GameState) (now : Option Int)
    (h : stateInv gs) : stateInv (gs.reset_buzz now) := by
  obtain ⟨ht, _, htm⟩ := h
  unfold GameState.reset_buzz
  have h1 : stateInv { gs with buzz_state := .closed, buzz_locked_team := none,
                               buzz_blocked_teams := ∅ } := by
    refine ⟨ht, ⟨by simp, by simp [lockedValid], ?_⟩, htm⟩
    intro t htmem
    simp at htmem
  cases now with
  | some now => exact stateInv_set_status _ _ _ _ h1
  | none => exact h1

theorem stateInv_clear_buzz_blocks (gs : GameState)
    (h : stateInv gs) : stateInv gs.clear_buzz_blocks := by
  obtain ⟨ht, ⟨hb1, hb2, hb3⟩, htm⟩ := h
  refine ⟨ht, ⟨hb1, hb2, ?_⟩, htm⟩
  intro t htmem
  simp [GameState.clear_buzz_blocks] at htmem

theorem stateInv_fail_locked (gs : GameState) (now : Option Int)
    (h : stateInv gs) : stateInv (gs.fail_locked_team_and_reopen now) := by
  obtain ⟨ht, ⟨hb1, hb2, hb3⟩, htm⟩ := h
  unfold GameState.fail_locked_team_and_reopen
  cases hl : gs.buzz_locked_team with
  | none =>
    have h1 : stateInv { gs with buzz_state := .open_, buzz_locked_team := none } :=
      ⟨ht, ⟨by simp, by simp [lockedValid], fun t htmem => hb3 t htmem⟩, htm⟩
    cases now with
    | some now => exact stateInv_set_status _ _ _ _ h1
    | none => exact h1
  | some t0 =>
    have hv : 0 ≤ t0 ∧ t0 < (gs.teams.length : Int) := by
      have h2 := hb2
      simp only [lockedValid, hl] at h2
      exact h2
    have h1 : stateInv { gs with buzz_blocked_teams := insert t0 gs.buzz_blocked_teams,
                                 buzz_state := .open_, buzz_locked_team := none } := by
      refine ⟨ht, ⟨by simp, by simp [lockedValid], ?_⟩, htm⟩
      intro t htmem
      rcases Finset.mem_insert.mp htmem with h | h
      · subst h
        exact hv
      · exact hb3 t h
    cases now with
    | some now => exact stateInv_set_status _ _ _ _ h1
    | none => exact h1

theorem stateInv_buzz (gs : GameState) (i : Int) (now : Option Int)
    (h : stateInv gs) : stateInv (gs.buzz i now).2 := by
  obtain ⟨ht, ⟨hb1, hb2, hb3⟩, htm⟩ := h
  unfold GameState.buzz
  split
  · exact ⟨ht, ⟨hb1, hb2, hb3⟩, htm⟩
  · split
    · exact ⟨ht, ⟨hb1, hb2, hb3⟩, htm⟩
    · split
      · cases now with
        | some now =>
          exact stateInv_set_status _ _ _ _ ⟨ht, ⟨hb1, hb2, hb3⟩, htm⟩
        | none => exact ⟨ht, ⟨hb1, hb2, hb3⟩, htm⟩
      · rename_i hopen hrange hblocked
        have hr : 0 ≤ i ∧ i < (gs.teams.length : Int) := by
          simp at hrange
          omega
        have h1 : stateInv { gs with buzz_state := .locked, buzz_locked_team := some i } := by
          refine ⟨ht, ⟨by simp, ?_, fun t htmem => hb3 t htmem⟩, htm⟩
          simp [lockedValid]
          omega
        cases now with
        | some now => exact stateInv_set_status _ _ _ _ h1
        | none => exact h1

theorem stateInv_set_score (gs : GameState) (k : Nat) (v : Team)
    (hname : ∃ t ∈ gs.teams, v.name = t.name) (h : stateInv gs) :
    stateInv { gs with teams := gs.teams.set k v } := by
  obtain ⟨⟨htne, htn⟩, ⟨hb1, hb2, hb3⟩, htm⟩ := h
  refine ⟨⟨?_, ?_⟩, ⟨hb1, ?_, ?_⟩, htm⟩
  · intro hnil
    have := congrArg List.length hnil
    simp at this
    exact htne this
  · intro t htmem
    rcases List.mem_or_eq_of_mem_set htmem with hmem | heq
    · exact htn t hmem
    · subst heq
      obtain ⟨t0, ht0, hv⟩ := hname
      rw [hv]
      exact htn t0 ht0
  · have h2 := hb2
    unfold lockedValid at h2 ⊢
    cases h3 : gs.buzz_locked_team with
    | none => simp
    | some t =>
      rw [h3] at h2
      simpa using h2
  · intro t htmem
    have := hb3 t htmem
    simpa using this

theorem stateInv_add_points (gs : GameState) (i p : Int) (now : Option Int)
    (h : stateInv gs) : stateInv (gs.add_points i p now) := by
  have hinv := h
  obtain ⟨⟨htne, htn⟩, ⟨hb1, hb2, hb3⟩, htm⟩ := h
  unfold GameState.add_points
  split
  · exact hinv
  · split
    · cases now with
      | some now => exact stateInv_set_status _ _ _ _ hinv
      | none => exact hinv
    · rename_i hrange hblocked
      have hr : 0 ≤ i ∧ i < (gs.teams.length : Int) := by
        simp at hrange
        omega
      have hlt : i.toNat < gs.teams.length := by omega
      have hget : gs.teams.getD i.toNat { name := "", score := 0 } ∈ gs.teams := by
        rw [List.getD_eq_getElem _ _ hlt]
        exact List.getElem_mem hlt
      have hset := stateInv_set_score gs i.toNat
        { name := (gs.teams.getD i.toNat { name := "", score := 0 }).name,
          score := (gs.teams.getD i.toNat { name := "", score := 0 }).score + p }
        ⟨gs.teams.getD i.toNat { name := "", score := 0 }, hget, rfl⟩ hinv
      cases now with
      | some now => exact stateInv_set_status _ _ _ _ hset
      | none => exact hset

theorem timerInv_reset (tm : Timer) (h : timerInv tm) : timerInv tm.reset := by
  obtain ⟨h1, h2, h3⟩ := h
  exact ⟨le_refl 0, h2, fun _ => rfl⟩

theorem timerInv_start (tm : Timer) (now : Int) (h : timerInv tm) :
    timerInv (tm.start now) := by
  obtain ⟨h1, h2, h3⟩ := h
  unfold Timer.start
  split
  · exact ⟨h1, h2, h3⟩
  · exact ⟨h1, h2, fun hc => by simp at hc⟩

theorem accumulate_proj (tm : Timer) (now : Int) :
    0 ≤ tm.elapsed_ms → 0 ≤ (tm.accumulate now).elapsed_ms ∧
      (tm.accumulate now).target_ms = tm.target_ms ∧
      (tm.accumulate now).running = tm.running ∧
      (tm.accumulate now).mode = tm.mode := by
  intro h1
  unfold Timer.accumulate
  cases tm.last_start_ms with
  | none => exact ⟨h1, rfl, rfl, rfl⟩
  | some last =>
    refine ⟨?_, rfl, rfl, rfl⟩
    have : 0 ≤ max 0 (now - last) := le_max_left 0 _
    simp only []
    omega

theorem timerInv_pause (tm : Timer) (now : Int) (h : timerInv tm) :
    timerInv (tm.pause now) := by
  obtain ⟨h1, h2, h3⟩ := h
  unfold Timer.pause
  split
  · exact ⟨h1, h2, h3⟩
  · obtain ⟨a1, a2, _, _⟩ := accumulate_proj tm now h1
    refine ⟨a1, ?_, fun _ => rfl⟩
    rw [a2]
    exact h2

theorem timerInv_tick (tm : Timer) (now : Int) (h : timerInv tm) :
    timerInv (tm.tick now) := by
  obtain ⟨h1, h2, h3⟩ := h
  unfold Timer.tick
  split
  · exact ⟨h1, h2, h3⟩
  · rename_i hrun
    obtain ⟨a1, a2, a3, _⟩ := accumulate_proj tm now h1
    refine ⟨a1, ?_, fun hc => ?_⟩
    · rw [a2]
      exact h2
    · rw [a3] at hc
      simp at hrun
      rw [hrun] at hc
      simp at hc

theorem stateInv_reset_scores (gs : GameState) (now : Option Int)
    (h : stateInv gs) : stateInv (gs.reset_scores now) := by
  obtain ⟨⟨htne, htn⟩, ⟨hb1, hb2, hb3⟩, htm⟩ := h
  unfold GameState.reset_scores
  have h1 : stateInv { gs with teams := gs.teams.map (fun t => { t with score := 0 }),
                               buzz_state := .closed, buzz_locked_team := none,
                               buzz_blocked_teams := ∅, timer := gs.timer.reset } := by
    refine ⟨⟨?_, ?_⟩, ⟨by simp, by simp [lockedValid], ?_⟩, timerInv_reset _ htm⟩
    · simp only [ne_eq, List.map_eq_nil_iff]
      exact htne
    · intro t htmem
      simp only [List.mem_map] at htmem
      obtain ⟨t0, ht0, heq⟩ := htmem
      subst heq
      exact htn t0 ht0
    · intro t htmem
      simp at htmem
  cases now with
  | some now => exact stateInv_set_status _ _ _ _ h1
  | none => exact h1

theorem stateInv_timer_update (gs : GameState) (tm : Timer)
    (htm : timerInv tm) (h : stateInv gs) : stateInv { gs with timer := tm } := by
  obtain ⟨ht, ⟨hb1, hb2, hb3⟩, _⟩ := h
  refine ⟨ht, ⟨hb1, ?_, fun t htmem => hb3 t htmem⟩, htm⟩
  unfold lockedValid at hb2 ⊢
  cases h3 : gs.buzz_locked_team with
  | none => simp
  | some t =>
    rw [h3] at hb2
    simpa using hb2

theorem stateInv_timer_toggle (gs : GameState) (now : Int)
    (h : stateInv gs) : stateInv (gs.timer_start_pause_toggle now) := by
  unfold GameState.timer_start_pause_toggle
  split
  · exact stateInv_set_status _ _ _ _
      (stateInv_timer_update gs _ (timerInv_pause _ _ h.2.2) h)
  · exact stateInv_set_status _ _ _ _
      (stateInv_timer_update gs _ (timerInv_start _ _ h.2.2) h)

theorem stateInv_timer_reset (gs : GameState) (now : Int)
    (h : stateInv gs) : stateInv (gs.timer_reset now) :=
  stateInv_set_status _ _ _ _
    (stateInv_timer_update gs _ (timerInv_reset _ h.2.2) h)

theorem stateInv_tick (gs : GameState) (now : Int)
    (h : stateInv gs) : stateInv (gs.tick now) :=
  stateInv_clear_expired_status _ _
    (stateInv_timer_update gs _ (timerInv_tick _ _ h.2.2) h)

theorem timerInv_set_countdown (tm tm2 : Timer) (target : Int)
    (hok : tm.set_countdown target = .ok tm2) (h : timerInv tm) : timerInv tm2 := by
  unfold Timer.set_countdown at hok
  split at hok
  · cases hok
  · rename_i hneg
    cases hok
    refine ⟨le_refl 0, ?_, fun _ => rfl⟩
    simp only [Timer.reset]
    omega

theorem timerInv_set_stopwatch (tm : Timer) (h : timerInv tm) :
    timerInv tm.set_stopwatch := by
  refine ⟨le_refl 0, ?_, fun _ => rfl⟩
  simp [Timer.set_stopwatch, Timer.reset]

theorem stateInv_with_teams (team_names : List String) (gs : GameState)
    (h : GameState.with_teams team_names = .ok gs) : stateInv gs := by
  simp only [GameState.with_teams] at h
  split at h
  · cases h
  · rename_i hne
    cases h
    refine ⟨⟨?_, ?_⟩, ⟨by simp, by simp [lockedValid], ?_⟩, ⟨le_refl 0, by simp [Timer.init], fun _ => rfl⟩⟩
    · simpa using hne
    · intro t htmem
      simp only [List.mem_map] at htmem
      obtain ⟨n, hn, heq⟩ := htmem
      subst heq
      obtain ⟨n0, hn0, heq0⟩ := hn
      simp only [List.mem_filter, Bool.and_eq_true, decide_eq_true_eq] at hn0
      subst heq0
      constructor
      · show pyStrip (pyStrip n0) = pyStrip n0
        exact pyStrip_idem n0
      · show pyStrip n0 ≠ ""
        exact hn0.2.2
    · intro t htmem
      simp at htmem

theorem reachable_stateInv (gs : GameState) (h : Reachable gs) : stateInv gs := by
  induction h with
  | with_teams names gs hok => exact stateInv_with_teams names gs hok
  | add_points gs i p now _ ih => exact stateInv_add_points gs i p now ih
  | reset_scores gs now _ ih => exact stateInv_reset_scores gs now ih
  | open_buzz gs now _ ih => exact stateInv_open_buzz gs now ih
  | reset_buzz gs now _ ih => exact stateInv_reset_buzz gs now ih
  | fail_locked gs now _ ih => exact stateInv_fail_locked gs now ih
  | clear_buzz_blocks gs _ ih => exact stateInv_clear_buzz_blocks gs ih
  | buzz gs i now _ ih => exact stateInv_buzz gs i now ih
  | set_status gs m now dur _ ih => exact stateInv_set_status gs m now dur ih
  | clear_expired_status gs now _ ih => exact stateInv_clear_expired_status gs now ih
  | timer_toggle gs now _ ih => exact stateInv_timer_toggle gs now ih
  | timer_reset gs now _ ih => exact stateInv_timer_reset gs now ih
  | tick gs now _ ih => exact stateInv_tick gs now ih
  | set_countdown gs target tm _ hok ih =>
    exact stateInv_timer_update gs tm (timerInv_set_countdown _ _ _ hok ih.2.2) ih
  | set_stopwatch gs _ ih =>
    exact stateInv_timer_update gs _ (timerInv_set_stopwatch _ ih.2.2) ih

theorem teamJson_parse (t : Team) (h1 : pyStrip t.name = t.name) (h2 : t.name ≠ "") :
    GameState.parseTeam (.jobj [("name", .jstr t.name), ("score", .jint t.score)]) = .ok t := by
  show (if pyStrip t.name = "" then _ else _ : Except String Team) = _
  rw [h1, if_neg h2]

theorem parseTeams_roundtrip (teams : List Team)
    (h : ∀ t ∈ teams, pyStrip t.name = t.name ∧ t.name ≠ "") :
    GameState.parseTeams (teams.map (fun t =>
      .jobj [("name", .jstr t.name), ("score", .jint t.score)])) = .ok teams := by
  induction teams with
  | nil => rfl
  | cons t ts ih =>
    have ht := h t (List.mem_cons_self t ts)
    have hts := ih (fun x hx => h x (List.mem_cons_of_mem t hx))
    simp only [List.map_cons, GameState.parseTeams]
    rw [teamJson_parse t ht.1 ht.2, hts]
    rfl

theorem applyBuzzFields_to_dict (gs0 gs : GameState) :
    GameState.applyBuzzFields gs0 gs.to_dict =
      { gs0 with buzz_state := gs.buzz_state, buzz_locked_team := gs.buzz_locked_team } := by
  have hb : (gs.to_dict).getD "buzz" (.jobj []) =
      .jobj [("state", .jstr gs.buzz_state.value),
             ("locked_team", match gs.buzz_locked_team with
                             | some t => .jint t
                             | none => .jnull)] := rfl
  unfold GameState.applyBuzzFields
  rw [hb]
  cases gs.buzz_locked_team with
  | none =>
    cases gs.buzz_state <;> rfl
  | some t =>
    cases gs.buzz_state <;> rfl

theorem applyTimerFields_to_dict (gs1 gs : GameState)
    (helapsed : 0 ≤ gs.timer.elapsed_ms)
    (htarget : match gs.timer.target_ms with
               | some x => 0 ≤ x
               | none => True) :
    GameState.applyTimerFields gs1 gs.to_dict =
      { gs1 with timer := { mode := gs.timer.mode, running := false,
                            elapsed_ms := gs.timer.elapsed_ms,
                            target_ms := gs.timer.target_ms,
                            last_start_ms := gs1.timer.last_start_ms } } := by
  have ht : (gs.to_dict).getD "timer" (.jobj []) =
      .jobj [("mode", .jstr gs.timer.mode.value),
             ("running", .jbool gs.timer.running),
             ("elapsed_ms", .jint gs.timer.elapsed_ms),
             ("target_ms", match gs.timer.target_ms with
                           | some x => .jint x
                           | none => .jnull)] := rfl
  unfold GameState.applyTimerFields
  rw [ht]
  cases hta : gs.timer.target_ms with
  | none =>
    cases hm : gs.timer.mode <;>
      simp [TimerMode.value, JValue.getD, JValue.get, List.find?, helapsed, hm]
  | some x =>
    have hx : 0 ≤ x := by
      rw [hta] at htarget
      exact htarget
    cases hm : gs.timer.mode <;>
      simp [TimerMode.value, JValue.getD, JValue.get, List.find?, helapsed, hx, hm]

theorem sanitizeLockedTeam_of_valid (gs : GameState) (h : lockedValid gs) :
    GameState.sanitizeLockedTeam gs = gs := by
  unfold GameState.sanitizeLockedTeam
  unfold lockedValid at h
  cases hl : gs.buzz_locked_team with
  | none => rfl
  | some t =>
    rw [hl] at h
    have h2 : 0 ≤ t ∧ t < (gs.teams.length : Int) := h
    dsimp only
    rw [if_pos h2]

theorem from_dict_to_dict (gs : GameState) (hinv : stateInv gs)
    (hrun : gs.timer.running = false) :
    GameState.from_dict gs.to_dict =
      .ok { gs with buzz_blocked_teams := ∅, status_message := none,
                    status_until_ms := none } := by
  obtain ⟨⟨htne, htn⟩, ⟨hb1, hb2, hb3⟩, ⟨htm1, htm2, htm3⟩⟩ := hinv
  have hne : (gs.teams.map (fun t : Team =>
      JValue.jobj [("name", .jstr t.name), ("score", .jint t.score)])).isEmpty = false := by
    cases h : gs.teams with
    | nil => exact absurd h htne
    | cons a l => rfl
  have key : GameState.from_dict gs.to_dict =
      (if (gs.teams.map (fun t : Team =>
            JValue.jobj [("name", .jstr t.name), ("score", .jint t.score)])).isEmpty
       then Except.error "GameState.teams must be a non-empty array"
       else do
        let teams ← GameState.parseTeams (gs.teams.map (fun t : Team =>
          JValue.jobj [("name", .jstr t.name), ("score", .jint t.score)]))
        let gs0 : GameState :=
          { teams := teams, buzz_state := .closed, buzz_locked_team := none,
            timer := Timer.init, buzz_blocked_teams := ∅,
            status_message := none, status_until_ms := none }
        Except.ok (GameState.sanitizeLockedTeam
          (GameState.applyTimerFields
            (GameState.applyBuzzFields gs0 gs.to_dict) gs.to_dict))) := rfl
  rw [key, hne]
  simp only [Bool.false_eq_true, if_false]
  rw [parseTeams_roundtrip gs.teams htn]
  show Except.ok (GameState.sanitizeLockedTeam
    (GameState.applyTimerFields
      (GameState.applyBuzzFields
        { teams := gs.teams, buzz_state := .closed, buzz_locked_team := none,
          timer := Timer.init, buzz_blocked_teams := ∅,
          status_message := none, status_until_ms := none } gs.to_dict) gs.to_dict)) = _
  rw [applyBuzzFields_to_dict, applyTimerFields_to_dict _ _ htm1 htm2]
  have htimer : ({ mode := gs.timer.mode, running := false,
                   elapsed_ms := gs.timer.elapsed_ms, target_ms := gs.timer.target_ms,
                   last_start_ms := (Timer.init : Timer).last_start_ms } : Timer) = gs.timer := by
    rw [show (Timer.init : Timer).last_start_ms = gs.timer.last_start_ms from (htm3 hrun).symm]
    rw [← hrun]
  rw [htimer]
  have hval : lockedValid { teams := gs.teams, buzz_state := gs.buzz_state,
                            buzz_locked_team := gs.buzz_locked_team, timer := gs.timer,
                            buzz_blocked_teams := (∅ : Finset Int), status_message := none,
                            status_until_ms := none } := hb2
  rw [sanitizeLockedTeam_of_valid _ hval]

theorem applyBuzzFields_proj (gs : GameState) (d : JValue) :
    (GameState.applyBuzzFields gs d).teams = gs.teams ∧
    (GameState.applyBuzzFields gs d).buzz_blocked_teams = gs.buzz_blocked_teams := by
  unfold GameState.applyBuzzFields
  dsimp only
  repeat' split
  all_goals exact ⟨rfl, rfl⟩

theorem applyTimerFields_proj (gs : GameState) (d : JValue) :
    (GameState.applyTimerFields gs d).teams = gs.teams ∧
    (GameState.applyTimerFields gs d).buzz_blocked_teams = gs.buzz_blocked_teams ∧
    (GameState.applyTimerFields gs d).buzz_state = gs.buzz_state ∧
    (GameState.applyTimerFields gs d).buzz_locked_team = gs.buzz_locked_team := by
  unfold GameState.applyTimerFields
  dsimp only
  repeat' split
  all_goals exact ⟨rfl, rfl, rfl, rfl⟩

theorem sanitizeLockedTeam_facts (gs : GameState) :
    lockedValid (GameState.sanitizeLockedTeam gs) ∧
    (GameState.sanitizeLockedTeam gs).buzz_blocked_teams = gs.buzz_blocked_teams := by
  unfold GameState.sanitizeLockedTeam
  cases hl : gs.buzz_locked_team with
  | none =>
    refine ⟨?_, rfl⟩
    unfold lockedValid
    rw [hl]
    trivial
  | some t =>
    dsimp only
    split
    · rename_i hin
      refine ⟨?_, rfl⟩
      unfold lockedValid
      rw [hl]
      exact hin
    · split
      · exact ⟨trivial, rfl⟩
      · exact ⟨trivial, rfl⟩

theorem from_dict_ok_facts (data : JValue) (gs : GameState)
    (h : GameState.from_dict data = .ok gs) :
    lockedValid gs ∧ gs.buzz_blocked_teams = ∅ := by
  unfold GameState.from_dict at h
  cases data with
  | jnull => cases h
  | jbool b => cases h
  | jint n => cases h
  | jstr s => cases h
  | jarr xs => cases h
  | jobj fields =>
    dsimp only at h
    split at h
    · rename_i items heq
      split at h
      · cases h
      · cases hp : GameState.parseTeams items with
        | error e =>
          rw [hp] at h
          cases h
        | ok teams =>
          rw [hp] at h
          have h2 : Except.ok (GameState.sanitizeLockedTeam
              (GameState.applyTimerFields (GameState.applyBuzzFields
                { teams := teams, buzz_state := .closed, buzz_locked_team := none,
                  timer := Timer.init, buzz_blocked_teams := ∅,
                  status_message := none, status_until_ms := none }
                (JValue.jobj fields)) (JValue.jobj fields)))
              = Except.ok gs := h
          cases h2
          obtain ⟨hv, hbl⟩ := sanitizeLockedTeam_facts
            (GameState.applyTimerFields (GameState.applyBuzzFields
              { teams := teams, buzz_state := .closed, buzz_locked_team := none,
                timer := Timer.init, buzz_blocked_teams := ∅,
                status_message := none, status_until_ms := none }
              (JValue.jobj fields)) (JValue.jobj fields))
          refine ⟨hv, ?_⟩
          rw [hbl, (applyTimerFields_proj _ _).2.1, (applyBuzzFields_proj _ _).2]
    · cases h

/-- C1: at most one award per task.  `mark_awarded` returns `True` exactly on
the first call per id (and the id stays marked), `False` on every later call
(leaving the guard unchanged); marking other ids or resetting other ids never
unmarks it, and only `reset` of that id clears it.  Applying the AWARD
command while the current task id is in the guard sets status
"Already awarded" and performs no other mutation: the resulting application
state is exactly the old one with only the status fields updated. -/
theorem C1_award_at_most_once :
    (∀ (s : ScoringState) (task_id : Int), s.is_awarded task_id = false →
      (s.mark_awarded task_id).1 = true ∧
      (s.mark_awarded task_id).2.is_awarded task_id = true) ∧
    (∀ (s : ScoringState) (task_id : Int), s.is_awarded task_id = true →
      (s.mark_awarded task_id).1 = false ∧ (s.mark_awarded task_id).2 = s) ∧
    (∀ (s : ScoringState) (task_id j : Int), s.is_awarded task_id = true →
      (s.mark_awarded j).2.is_awarded task_id = true) ∧
    (∀ (s : ScoringState) (task_id j : Int), j ≠ task_id →
      (s.reset j).is_awarded task_id = s.is_awarded task_id) ∧
    (∀ (s : ScoringState) (task_id : Int),
      (s.reset task_id).is_awarded task_id = false) ∧
    (∀ (task : GameTask) (app : AppState) (now i : Int),
      task.id = some i → app.scoring_state.is_awarded i = true →
      Application.applyAward task app now =
        some { app with game_state := app.game_state.set_status "Already awarded" now 2000 }) := by
  refine ⟨?_, ?_, ?_, ?_, ?_, ?_⟩
  · intro s task_id h
    simp only [ScoringState.is_awarded, decide_eq_false_iff_not] at h
    simp [ScoringState.mark_awarded, ScoringState.is_awarded, h]
  · intro s task_id h
    simp only [ScoringState.is_awarded, decide_eq_true_eq] at h
    simp [ScoringState.mark_awarded, h]
  · intro s task_id j h
    simp only [ScoringState.is_awarded, decide_eq_true_eq] at h
    unfold ScoringState.mark_awarded
    split
    · simpa [ScoringState.is_awarded] using h
    · simp [ScoringState.is_awarded, Finset.mem_insert, h]
  · intro s task_id j h
    simp [ScoringState.reset, ScoringState.is_awarded, Finset.mem_erase, Ne.symm h]
  · intro s task_id
    simp [ScoringState.reset, ScoringState.is_awarded]
  · intro task app now i hid h
    simp [Application.applyAward, hid, h]

/-- C1 witness: a fresh guard marks task 7 (returning `True`), and the AWARD
command on a state whose guard already holds 7 only sets the status. -/
theorem C1_award_at_most_once_witness :
    ((ScoringState.init.mark_awarded 7).1 = true ∧
     (ScoringState.init.mark_awarded 7).2.is_awarded 7 = true) ∧
    Application.applyAward ⟨some 7, some 3⟩
        ⟨gsA, some 0, (ScoringState.init.mark_awarded 7).2⟩ 5 =
      some ⟨gsA.set_status "Already awarded" 5 2000, some 0,
            (ScoringState.init.mark_awarded 7).2⟩ :=
  ⟨C1_award_at_most_once.1 ScoringState.init 7 (by decide),
   C1_award_at_most_once.2.2.2.2.2 ⟨some 7, some 3⟩
     ⟨gsA, some 0, (ScoringState.init.mark_awarded 7).2⟩ 5 7 rfl (by decide)⟩

/-- C2 counterexample: the accepted document `lockedNoneDoc` (state
"locked", no locked team) deserializes to a state with
`buzz_state = Locked` but `buzz_locked_team = None`, refuting the claimed
"locked-team iff Locked" invariant for `from_dict` outputs. -/
theorem C2_counterexample :
    GameState.from_dict lockedNoneDoc = .ok { gsA with buzz_state := .locked } ∧
    ¬((({ gsA with buzz_state := .locked } : GameState).buzz_locked_team ≠ none) ↔
      ({ gsA with buzz_state := .locked } : GameState).buzz_state = BuzzState.locked) := by
  exact ⟨by decide, by decide⟩

/-- C2 amended: the arbiter consistency invariant (locked team present iff
state is Locked, and all stored indices valid) holds in every state
reachable through the public operations; `from_dict` on an accepted
document guarantees only the weaker facts that the locked team, when
present, is a valid index, and that the blocked set is empty. -/
theorem C2_arbiter_invariant :
    (∀ gs : GameState, Reachable gs → buzzInv gs) ∧
    (∀ (data : JValue) (gs : GameState), GameState.from_dict data = .ok gs →
      lockedValid gs ∧ gs.buzz_blocked_teams = ∅) :=
  ⟨fun gs h => (reachable_stateInv gs h).2.1, from_dict_ok_facts⟩

/-- C2 witness: the invariant evaluated on the concrete freshly constructed
state, and the weak guarantee on its serialized form. -/
theorem C2_arbiter_invariant_witness :
    buzzInv gsA ∧ (lockedValid gsA ∧ gsA.buzz_blocked_teams = ∅) :=
  ⟨C2_arbiter_invariant.1 gsA (Reachable.with_teams ["A"] gsA (by decide)),
   C2_arbiter_invariant.2 gsA.to_dict gsA (by decide)⟩

/-- C3 counterexample: with one team, team 0 blocked and selected, the
award helper returns team index 0 even though no award occurred (the
ledger is unchanged) — refuting "returns nothing whenever no award
occurred". -/
theorem C3_counterexample :
    award_points_for_current_task ⟨some 0, some 3⟩ gsBlocked (some 0) 5 =
      some (some 0, gsBlocked.set_status "BLOCKED: A" 5 2000) ∧
    (gsBlocked.set_status "BLOCKED: A" 5 2000).teams = gsBlocked.teams := by
  exact ⟨by decide, by decide⟩

/-- C3 amended: given a present difficulty, `award_points_for_current_task`
resolves the target to the locked team when set, else the selected team;
when no target resolves it sets status "No team selected", changes no
ledger or buzz data and returns nothing; when a target `t` resolves it
returns `t` and delegates to `add_points` — the return value reports the
resolved target even when `add_points` suppressed the score change
(blocked or out-of-range target). -/
theorem C3_award_target_resolution (task : GameTask) (gs : GameState)
    (selected : Option Int) (now d : Int) (hd : task.difficulty = some d) :
    ∃ r gs1, award_points_for_current_task task gs selected now = some (r, gs1) ∧
      r = (match gs.buzz_locked_team with
           | some t => some t
           | none => selected) ∧
      (r = none → gs1.teams = gs.teams ∧ gs1.buzz_state = gs.buzz_state ∧
        gs1.buzz_locked_team = gs.buzz_locked_team ∧
        gs1.buzz_blocked_teams = gs.buzz_blocked_teams ∧
        gs1.status_message = some "No team selected") ∧
      (∀ t, r = some t → gs1 = gs.add_points t d (some now)) := by
  unfold award_points_for_current_task
  rw [hd]
  cases hl : gs.buzz_locked_team with
  | some t =>
    refine ⟨some t, gs.add_points t d (some now), rfl, rfl, ?_, ?_⟩
    · intro hc
      cases hc
    · intro t2 ht2
      cases ht2
      rfl
  | none =>
    cases selected with
    | some t =>
      refine ⟨some t, gs.add_points t d (some now), rfl, rfl, ?_, ?_⟩
      · intro hc
        cases hc
      · intro t2 ht2
        cases ht2
        rfl
    | none =>
      refine ⟨none, gs.set_status "No team selected" now 2000, rfl, rfl, ?_, ?_⟩
      · intro _
        exact ⟨rfl, rfl, hl, rfl, rfl⟩
      · intro t2 ht2
        cases ht2

/-- C3 witness: the amended statement evaluated with no locked team and no
selection on the concrete one-team state. -/
theorem C3_award_target_resolution_witness :
    ∃ r gs1, award_points_for_current_task ⟨some 0, some 3⟩ gsA none 5 = some (r, gs1) ∧
      r = (match gsA.buzz_locked_team with
           | some t => some t
           | none => (none : Option Int)) ∧
      (r = none → gs1.teams = gsA.teams ∧ gs1.buzz_state = gsA.buzz_state ∧
        gs1.buzz_locked_team = gsA.buzz_locked_team ∧
        gs1.buzz_blocked_teams = gsA.buzz_blocked_teams ∧
        gs1.status_message = some "No team selected") ∧
      (∀ t, r = some t → gs1 = gsA.add_points t 3 (some 5)) :=
  C3_award_target_resolution ⟨some 0, some 3⟩ gsA none 5 3 rfl

/-- A blocked team's buzz on an open arbiter fails with only a BLOCKED
status. -/
theorem buzz_blocked_result (g : GameState) (t now2 : Int)
    (hopen : g.buzz_state = .open_)
    (hrange : 0 ≤ t ∧ t < (g.teams.length : Int))
    (hmem : t ∈ g.buzz_blocked_teams) :
    g.buzz t (some now2) =
      (false, g.set_status ("BLOCKED: " ++ g.teamName t) now2 2000) := by
  unfold GameState.buzz
  rw [if_neg (by simp [hopen]), if_neg (by simp [hrange.1, hrange.2]), if_pos hmem]

/-- C4: from any state locked on a (valid) team `t`,
`fail_locked_team_and_reopen` opens the buzzer, clears the locked team and
blocks `t`; a subsequent `buzz(t)` returns `False`, leaves the arbiter Open
with no locked team, and sets the status "BLOCKED: {name}". -/
theorem C4_fail_and_reopen (gs : GameState) (t now now2 : Int)
    (hstate : gs.buzz_state = .locked) (hlock : gs.buzz_locked_team = some t)
    (hrange : 0 ≤ t ∧ t < (gs.teams.length : Int)) :
    (gs.fail_locked_team_and_reopen (some now)).buzz_state = .open_ ∧
    (gs.fail_locked_team_and_reopen (some now)).buzz_locked_team = none ∧
    t ∈ (gs.fail_locked_team_and_reopen (some now)).buzz_blocked_teams ∧
    ((gs.fail_locked_team_and_reopen (some now)).buzz t (some now2)).1 = false ∧
    ((gs.fail_locked_team_and_reopen (some now)).buzz t (some now2)).2.buzz_state = .open_ ∧
    ((gs.fail_locked_team_and_reopen (some now)).buzz t (some now2)).2.buzz_locked_team = none ∧
    ((gs.fail_locked_team_and_reopen (some now)).buzz t (some now2)).2.status_message =
      some ("BLOCKED: " ++ gs.teamName t) := by
  have h1 : gs.fail_locked_team_and_reopen (some now) =
      ({ gs with buzz_blocked_teams := insert t gs.buzz_blocked_teams,
                 buzz_state := .open_,
                 buzz_locked_team := none }).set_status "BUZZ REOPEN" now 2000 := by
    unfold GameState.fail_locked_team_and_reopen
    rw [hlock]
  rw [h1]
  set gs1 : GameState :=
    ({ gs with buzz_blocked_teams := insert t gs.buzz_blocked_teams,
               buzz_state := .open_,
               buzz_locked_team := none }).set_status "BUZZ REOPEN" now 2000 with hgs1
  have hmem : t ∈ gs1.buzz_blocked_teams := Finset.mem_insert_self t _
  rw [buzz_blocked_result gs1 t now2 rfl hrange hmem]
  exact ⟨rfl, rfl, hmem, rfl, rfl, rfl, rfl⟩

/-- C4 witness: the transition evaluated on the concrete one-team state
locked on team 0. -/
theorem C4_fail_and_reopen_witness :
    ((((gsA.open_buzz none).buzz 0 none).2.fail_locked_team_and_reopen (some 1)).buzz_state = .open_ ∧
    (((gsA.open_buzz none).buzz 0 none).2.fail_locked_team_and_reopen (some 1)).buzz_locked_team = none ∧
    (0 : Int) ∈ (((gsA.open_buzz none).buzz 0 none).2.fail_locked_team_and_reopen (some 1)).buzz_blocked_teams ∧
    ((((gsA.open_buzz none).buzz 0 none).2.fail_locked_team_and_reopen (some 1)).buzz 0 (some 2)).1 = false ∧
    ((((gsA.open_buzz none).buzz 0 none).2.fail_locked_team_and_reopen (some 1)).buzz 0 (some 2)).2.buzz_state = .open_ ∧
    ((((gsA.open_buzz none).buzz 0 none).2.fail_locked_team_and_reopen (some 1)).buzz 0 (some 2)).2.buzz_locked_team = none ∧
    ((((gsA.open_buzz none).buzz 0 none).2.fail_locked_team_and_reopen (some 1)).buzz 0 (some 2)).2.status_message =
      some ("BLOCKED: " ++ ((gsA.open_buzz none).buzz 0 none).2.teamName 0)) :=
  C4_fail_and_reopen ((gsA.open_buzz none).buzz 0 none).2 0 1 2
    (by decide) (by decide) (by decide)

/-- C5 counterexample: team 0 is blocked, yet `reset_scores` — which is
neither `clear_buzz_blocks` nor `reset_buzz` — empties the blocked set, so
the block does not persist under every other operation. -/
theorem C5_counterexample :
    (0 : Int) ∈ gsBlocked.buzz_blocked_teams ∧
    (gsBlocked.reset_scores none).buzz_blocked_teams = ∅ := by
  exact ⟨by decide, by decide⟩

/-- `add_points` never alters the blocked set. -/
theorem add_points_blocked_set (gs : GameState) (i p : Int) (now : Option Int) :
    (gs.add_points i p now).buzz_blocked_teams = gs.buzz_blocked_teams := by
  unfold GameState.add_points
  repeat' split
  all_goals rfl

/-- `add_points` aimed at a blocked team leaves the ledger unchanged. -/
theorem add_points_blocked_teams_eq (gs : GameState) (b p : Int)
    (now : Option Int) (hb : b ∈ gs.buzz_blocked_teams) :
    (gs.add_points b p now).teams = gs.teams := by
  unfold GameState.add_points
  repeat' split
  all_goals first
    | rfl
    | exact absurd hb (by assumption)

/-- `buzz` never alters the blocked set. -/
theorem buzz_blocked_set (gs : GameState) (i : Int) (now : Option Int) :
    ((gs.buzz i now).2).buzz_blocked_teams = gs.buzz_blocked_teams := by
  unfold GameState.buzz
  repeat' split
  all_goals rfl

/-- C5 amended: a blocked team `b` receives no score change from any
`add_points` call targeting it (with the BLOCKED status emitted when `b` is
a valid index and a timestamp is supplied), and `b` stays blocked under
every public operation except `clear_buzz_blocks`, `reset_buzz` — and
`reset_scores`, which also clears the blocked set. -/
theorem C5_blocked_teams (gs : GameState) (b : Int)
    (hb : b ∈ gs.buzz_blocked_teams) :
    (∀ (p : Int) (now : Option Int), (gs.add_points b p now).teams = gs.teams) ∧
    (0 ≤ b ∧ b < (gs.teams.length : Int) → ∀ (p now : Int),
      (gs.add_points b p (some now)).status_message =
        some ("BLOCKED: " ++ gs.teamName b)) ∧
    (∀ (i p : Int) (now : Option Int), b ∈ (gs.add_points i p now).buzz_blocked_teams) ∧
    (∀ now, b ∈ (gs.open_buzz now).buzz_blocked_teams) ∧
    (∀ (i : Int) (now : Option Int), b ∈ ((gs.buzz i now).2).buzz_blocked_teams) ∧
    (∀ now, b ∈ (gs.fail_locked_team_and_reopen now).buzz_blocked_teams) ∧
    (∀ (m : String) (now dur : Int), b ∈ (gs.set_status m now dur).buzz_blocked_teams) ∧
    (∀ now : Int, b ∈ (gs.clear_expired_status now).buzz_blocked_teams) ∧
    (∀ now : Int, b ∈ (gs.timer_start_pause_toggle now).buzz_blocked_teams) ∧
    (∀ now : Int, b ∈ (gs.timer_reset now).buzz_blocked_teams) ∧
    (∀ now : Int, b ∈ (gs.tick now).buzz_blocked_teams) ∧
    gs.clear_buzz_blocks.buzz_blocked_teams = ∅ ∧
    (∀ now, (gs.reset_buzz now).buzz_blocked_teams = ∅) ∧
    (∀ now, (gs.reset_scores now).buzz_blocked_teams = ∅) := by
  refine ⟨?_, ?_, ?_, ?_, ?_, ?_, ?_, ?_, ?_, ?_, ?_, rfl, ?_, ?_⟩
  · intro p now
    exact add_points_blocked_teams_eq gs b p now hb
  · intro hrange p now
    unfold GameState.add_points
    rw [if_neg (by simp [hrange.1, hrange.2]), if_pos hb]
    rfl
  · intro i p now
    rw [add_points_blocked_set]
    exact hb
  · intro now
    unfold GameState.open_buzz
    cases now <;> simpa [GameState.set_status] using hb
  · intro i now
    rw [buzz_blocked_set]
    exact hb
  · intro now
    unfold GameState.fail_locked_team_and_reopen
    cases gs.buzz_locked_team with
    | none => cases now <;> simpa [GameState.set_status] using hb
    | some t0 =>
      cases now <;> simp [GameState.set_status, Finset.mem_insert] <;>
        exact Or.inr hb
  · intro m now dur
    exact hb
  · intro now
    unfold GameState.clear_expired_status
    split
    · split
      · exact hb
      · exact hb
    · exact hb
  · intro now
    unfold GameState.timer_start_pause_toggle
    split
    · exact hb
    · exact hb
  · intro now
    exact hb
  · intro now
    unfold GameState.tick GameState.clear_expired_status
    split
    · split
      · exact hb
      · exact hb
    · exact hb
  · intro now
    unfold GameState.reset_buzz
    cases now <;> rfl
  · intro now
    unfold GameState.reset_scores
    cases now <;> rfl

/-- C5 witness: the amended statement evaluated on the concrete blocked
state. -/
theorem C5_blocked_teams_witness :
    (gsBlocked.add_points 0 3 (some 5)).teams = gsBlocked.teams ∧
    (gsBlocked.add_points 0 3 (some 5)).status_message =
      some ("BLOCKED: " ++ gsBlocked.teamName 0) ∧
    (0 : Int) ∈ (gsBlocked.open_buzz (some 5)).buzz_blocked_teams :=
  ⟨(C5_blocked_teams gsBlocked 0 (by decide)).1 3 (some 5),
   (C5_blocked_teams gsBlocked 0 (by decide)).2.1 (by decide) 3 5,
   (C5_blocked_teams gsBlocked 0 (by decide)).2.2.2.1 (some 5)⟩

/-- C6 counterexample: the reachable state obtained by `open_buzz(0)` on a
fresh one-team session has a paused timer, yet deserializing its serialized
form does not return the same state (the status message is not persisted),
refuting the exact round-trip equation. -/
theorem C6_counterexample :
    Reachable (gsA.open_buzz (some 0)) ∧
    (gsA.open_buzz (some 0)).timer.running = false ∧
    GameState.from_dict (gsA.open_buzz (some 0)).to_dict ≠
      .ok (gsA.open_buzz (some 0)) :=
  ⟨Reachable.open_buzz gsA (some 0) (Reachable.with_teams ["A"] gsA (by decide)),
   by decide, by decide⟩

/-- C6 amended: for every operation-reachable state with a paused timer,
deserializing the serialized document restores the state exactly except
that the blocked-team set and the transient status message are reset (they
are not part of the persisted document). -/
theorem C6_roundtrip (gs : GameState) (h : Reachable gs)
    (hrun : gs.timer.running = false) :
    GameState.from_dict gs.to_dict =
      .ok { gs with buzz_blocked_teams := ∅, status_message := none,
                    status_until_ms := none } :=
  from_dict_to_dict gs (reachable_stateInv gs h) hrun

/-- C6 witness: the round-trip evaluated on the concrete freshly
constructed state. -/
theorem C6_roundtrip_witness :
    GameState.from_dict gsA.to_dict =
      .ok { gsA with buzz_blocked_teams := ∅, status_message := none,
                     status_until_ms := none } :=
  C6_roundtrip gsA (Reachable.with_teams ["A"] gsA (by decide)) (by decide)

/-- C7: the loader does not check the persisted version: `from_dict`
accepts `version99Doc` (version 99) and interprets its fields, instead of
failing with a load error as the claim requires. -/
theorem C7_version_not_checked :
    GameState.from_dict version99Doc =
      .ok { gsA with teams := [{ name := "A", score := 5 }] } := by
  decide

/-- C8: the task loader performs no difficulty validation: it accepts a
quiz record with no `difficulty` field, and rejects a well-formed record
carrying `difficulty: 3` (the dataclasses declare no such constructor
argument), contradicting the claimed difficulty guarantee (and the
repository's own task-loading tests). -/
theorem C8_difficulty_not_validated :
    exceptAccepts (TaskLoader.load_tasks quizNoDifficultyDoc) = true ∧
    exceptAccepts (TaskLoader.load_tasks quizWithDifficultyDoc) = false := by
  exact ⟨by decide, by decide⟩

/-- C9: starting a fresh (paused, zero-elapsed) timer at any non-negative
`t0`, ticking at `t0+500` and pausing at `t0+500` accumulates exactly
500 ms; any tick while not running is a no-op; and `reset` zeroes
`elapsed_ms` and clears `running` from every prior timer state. -/
theorem C9_timer_accumulation (tm : Timer) (t0 : Int) (h0 : 0 ≤ t0)
    (hrun : tm.running = false) (helapsed : tm.elapsed_ms = 0) :
    (((tm.start t0).tick (t0 + 500)).pause (t0 + 500)).elapsed_ms = 500 ∧
    (((tm.start t0).tick (t0 + 500)).pause (t0 + 500)).running = false ∧
    (∀ (tm2 : Timer) (now : Int), tm2.running = false → tm2.tick now = tm2) ∧
    (∀ tm2 : Timer, tm2.reset.elapsed_ms = 0 ∧ tm2.reset.running = false) := by
  have hstart : tm.start t0 = { tm with running := true, last_start_ms := some t0 } := by
    unfold Timer.start
    rw [if_neg (by simp [hrun])]
  have htick : ({ tm with running := true, last_start_ms := some t0 } : Timer).tick (t0 + 500) =
      { tm with running := true,
                elapsed_ms := tm.elapsed_ms + max 0 (t0 + 500 - t0),
                last_start_ms := some (t0 + 500) } := by
    unfold Timer.tick Timer.accumulate
    rw [if_neg (by simp)]
  have hpause : Timer.pause
      { tm with running := true,
                elapsed_ms := tm.elapsed_ms + max 0 (t0 + 500 - t0),
                last_start_ms := some (t0 + 500) } (t0 + 500) =
      { tm with running := false,
                elapsed_ms := tm.elapsed_ms + max 0 (t0 + 500 - t0) + max 0 (t0 + 500 - (t0 + 500)),
                last_start_ms := none } := by
    unfold Timer.pause Timer.accumulate
    rw [if_neg (by simp)]
  refine ⟨?_, ?_, ?_, ?_⟩
  · rw [hstart, htick, hpause]
    simp only [helapsed]
    omega
  · rw [hstart, htick, hpause]
  · intro tm2 now h2
    unfold Timer.tick
    rw [if_pos (by simp [h2])]
  · intro tm2
    exact ⟨rfl, rfl⟩

/-- C9 witness: the accumulation sequence evaluated on the initial timer at
`t0 = 1000`. -/
theorem C9_timer_accumulation_witness :
    (((Timer.init.start 1000).tick (1000 + 500)).pause (1000 + 500)).elapsed_ms = 500 ∧
    (((Timer.init.start 1000).tick (1000 + 500)).pause (1000 + 500)).running = false ∧
    (∀ (tm2 : Timer) (now : Int), tm2.running = false → tm2.tick now = tm2) ∧
    (∀ tm2 : Timer, tm2.reset.elapsed_ms = 0 ∧ tm2.reset.running = false) :=
  C9_timer_accumulation Timer.init 1000 (by decide) (by decide) (by decide)

/-- The construction filter `name and name.strip()` is equivalent to
requiring a non-blank strip (an empty string strips to itself). -/
theorem with_teams_filter_cond (n : String) :
    (decide (n ≠ "") && decide (pyStrip n ≠ "")) = decide (pyStrip n ≠ "") := by
  by_cases h : n = ""
  · subst h
    decide
  · simp [h]

/-- C10: construction from at least one name succeeds iff some name is
non-blank after trimming; otherwise it raises the configuration
`ValueError`; and on success the ledger holds exactly the trimmed non-blank
names, in order, each with score 0. -/
theorem C10_with_teams (team_names : List String) (hne : team_names ≠ []) :
    ((∃ gs, GameState.with_teams team_names = .ok gs) ↔
      ∃ n ∈ team_names, pyStrip n ≠ "") ∧
    ((¬∃ n ∈ team_names, pyStrip n ≠ "") →
      GameState.with_teams team_names = .error "At least one team name required") ∧
    (∀ gs, GameState.with_teams team_names = .ok gs →
      gs.teams = (team_names.filter (fun n => decide (pyStrip n ≠ ""))).map
        (fun n => { name := pyStrip n, score := 0 })) := by
  have hfc : team_names.filter (fun n => decide (n ≠ "") && decide (pyStrip n ≠ ""))
      = team_names.filter (fun n => decide (pyStrip n ≠ "")) :=
    List.filter_congr (fun n _ => with_teams_filter_cond n)
  have hiff : team_names.filter (fun n => decide (pyStrip n ≠ "")) = [] ↔
      ¬∃ n ∈ team_names, pyStrip n ≠ "" := by
    rw [List.filter_eq_nil_iff]
    constructor
    · intro h
      rintro ⟨n, hn, hns⟩
      exact absurd (by simpa using h n hn) hns
    · intro h n hn
      simp only [decide_eq_true_eq]
      intro hc
      exact h ⟨n, hn, hc⟩
  refine ⟨?_, ?_, ?_⟩
  · constructor
    · rintro ⟨gs, hgs⟩
      simp only [GameState.with_teams, hfc] at hgs
      by_contra hno
      rw [(by simpa using hiff.mpr hno : team_names.filter
        (fun n => decide (pyStrip n ≠ "")) = [])] at hgs
      simp at hgs
    · intro hex
      cases h : GameState.with_teams team_names with
      | ok gs => exact ⟨gs, rfl⟩
      | error e =>
        exfalso
        simp only [GameState.with_teams, hfc] at h
        split at h
        · rename_i hc
          simp only [List.map_eq_nil_iff] at hc
          exact (hiff.mp hc) hex
        · cases h
  · intro hno
    simp only [GameState.with_teams, hfc]
    rw [if_pos ?hpos]
    case hpos =>
      rw [List.map_eq_nil_iff]
      exact hiff.mpr hno
  · intro gs hgs
    simp only [GameState.with_teams, hfc] at hgs
    split at hgs
    · cases hgs
    · cases hgs
      rw [List.map_map]
      rfl

/-- C10 witness: construction from `["A", " "]` succeeds with exactly the
one trimmed team. -/
theorem C10_with_teams_witness :
    ((∃ gs, GameState.with_teams ["A", " "] = .ok gs) ↔
      ∃ n ∈ ["A", " "], pyStrip n ≠ "") ∧
    ((¬∃ n ∈ ["A", " "], pyStrip n ≠ "") →
      GameState.with_teams ["A", " "] = .error "At least one team name required") ∧
    (∀ gs, GameState.with_teams ["A", " "] = .ok gs →
      gs.teams = ((["A", " "] : List String).filter (fun n => decide (pyStrip n ≠ ""))).map
        (fun n => { name := pyStrip n, score := 0 })) :=
  C10_with_teams ["A", " "] (by decide)
